import Mathlib

/-!
# Verification of the gfx factory extension (`src/render/src/factory.rs`)

A shallow embedding of the `FactoryExt` trait: the convenience layer that
turns raw shader bytecode and vertex data into a validated, device-backed
graphics pipeline object.  The device/factory capability, the resource
handle types, the `Slice`/`IndexBuffer` model and the typed pipeline
specification live in the repository's supporting crates (`gfx_core`,
`slice`, `pso`, `shade`); those are modelled from the specification and
marked as such.  Every backend interaction is recorded in a call log so
that "the backend operation is never invoked" statements are expressible.
-/

namespace GfxFactory

/-- Modelled from the spec: error returned by raw device buffer allocation
(`gfx_core`); its payload is abstracted to a numeric code. -/
structure BufferError where
  code : Nat
deriving DecidableEq

/-- Modelled from the spec: error returned by raw shader-stage compilation
(`gfx_core::CreateShaderError`); payload abstracted to a numeric code. -/
structure CreateShaderError where
  code : Nat
deriving DecidableEq

/-- Modelled from the spec: error returned by raw program linking
(compiled stages incompatible at link time); payload abstracted. -/
structure LinkError where
  code : Nat
deriving DecidableEq

/-- Modelled from the spec: the descriptor-link (init/format-mismatch) error
(`pso::InitError`): the typed specification referenced a missing or
type-incompatible program slot; payload abstracted. -/
structure InitError where
  code : Nat
deriving DecidableEq

/-- Modelled from the spec: device-create error (`gfx_core::pso::CreationError`):
the backend refused the fully-specified pipeline state; payload abstracted. -/
structure CreationError where
  code : Nat
deriving DecidableEq

/-- Modelled from the spec: an opaque handle to one compiled shader stage. -/
structure Shader where
  id : Nat
deriving DecidableEq

/-- Modelled from the spec: the reflected interface of a compiled program —
the set of attribute/uniform/sampler names the program actually exposes. -/
structure ProgramInfo where
  attributes : List String
deriving DecidableEq

/-- Modelled from the spec: an opaque handle to a linked shader program,
carrying its reflected interface (`program.get_info()`). -/
structure Program where
  id : Nat
  info : ProgramInfo
deriving DecidableEq

/-- Modelled from the spec: the raw, backend-specific pipeline-state object. -/
structure RawPipelineState where
  id : Nat
deriving DecidableEq

/-- Modelled from the spec: an opaque sampler handle. -/
structure Sampler where
  id : Nat
deriving DecidableEq

/-- Modelled from the spec: the role a raw buffer is allocated for. -/
inductive BufferRole where
  | Vertex
  | Index
  | Uniform
deriving DecidableEq

/-- Modelled from the spec: resource binding flags (`gfx_core::factory::Bind`). -/
inductive BindFlag where
  | RenderTarget
  | DepthStencil
  | TransferSrc
  | TransferDst
deriving DecidableEq

/-- Modelled from the spec: a set of binding flags. -/
abbrev Bind := List BindFlag

/-- `Bind::empty()`: no binding flags. -/
def Bind.empty : Bind := []

/-- Modelled from the spec: texture filtering methods (`tex::FilterMethod`). -/
inductive FilterMethod where
  | Scale
  | Mipmap
  | Bilinear
  | Trilinear
  | Anisotropic (max : Nat)
deriving DecidableEq

/-- Modelled from the spec: texture addressing modes (`tex::WrapMode`). -/
inductive WrapMode where
  | Tile
  | Mirror
  | Clamp
deriving DecidableEq

/-- Modelled from the spec: sampler configuration — a filter method and an
addressing mode per axis (`tex::SamplerInfo`). -/
structure SamplerInfo where
  filter : FilterMethod
  wrap_u : WrapMode
  wrap_v : WrapMode
deriving DecidableEq

/-- Modelled from the spec: `SamplerInfo::new(filter, wrap)` applies the same
addressing mode on both axes. -/
def SamplerInfo.new (filter : FilterMethod) (wrap : WrapMode) : SamplerInfo :=
  { filter := filter, wrap_u := wrap, wrap_v := wrap }

/-- Modelled from the spec: primitive topology (`gfx_core::Primitive`). -/
inductive Primitive where
  | PointList
  | LineList
  | LineStrip
  | TriangleList
  | TriangleStrip
deriving DecidableEq

/-- Modelled from the spec: polygon winding order. -/
inductive FrontFace where
  | Clockwise
  | CounterClockwise
deriving DecidableEq

/-- Modelled from the spec: which faces are culled. -/
inductive CullFace where
  | Nothing
  | Front
  | Back
deriving DecidableEq

/-- Modelled from the spec: how polygons are rasterized. -/
inductive RasterMethod where
  | Point
  | Line (width : Nat)
  | Fill
deriving DecidableEq

/-- Modelled from the spec: rasterizer configuration (`state::Rasterizer`). -/
structure Rasterizer where
  front_face : FrontFace
  cull_face : CullFace
  method : RasterMethod
  offset : Option Int
  samples : Option Nat
deriving DecidableEq

/-- Modelled from the spec: `Rasterizer::new_fill()` — a rasterizer capable of
rendering triangle faces with the fill method and no culling. -/
def Rasterizer.new_fill : Rasterizer :=
  { front_face := FrontFace.CounterClockwise
    cull_face := CullFace.Nothing
    method := RasterMethod.Fill
    offset := none
    samples := none }

/-- Modelled from the spec: a device buffer handle (`handle::Buffer<R, T>`);
`size` is its element count, fixed at creation from the supplied data. -/
structure Buffer (T : Type) where
  id : Nat
  size : Nat
deriving DecidableEq

/-- `Buffer::len()`: the number of elements the buffer holds. -/
def Buffer.len {T : Type} (b : Buffer T) : Nat := b.size

/-- Modelled from the spec: the index-buffer variant of a `Slice` — draw in
vertex order (`Auto`), or through a 16- or 32-bit device index buffer. -/
inductive IndexBuffer where
  | Auto
  | Index16 (ib : Buffer UInt16)
  | Index32 (ib : Buffer UInt32)
deriving DecidableEq

/-- Modelled from the spec: a draw range over a vertex/index stream.  The
source stores `start`/`end` as `u32`; they are kept as `Nat` here and the
`usize → u32` cast is made explicit (`% 2^32`) at the construction site. -/
structure Slice where
  start : Nat
  stop : Nat
  base_vertex : Nat
  instances : Option Nat
  buffer : IndexBuffer
deriving DecidableEq

/-- Modelled from the spec: the caller's index input — anything convertible
into an `IndexBuffer` (`IntoIndexBuffer`): nothing (`()` — draw in vertex
order), or a sequence of 16- or 32-bit indices. -/
inductive IndexInput where
  | Auto
  | Index16Data (data : List UInt16)
  | Index32Data (data : List UInt32)
deriving DecidableEq

/-- Modelled from the spec: `into_index_buffer` — converts the caller's index
input into an `IndexBuffer` variant; device-visible index buffer creation
happens here when the input is not `Auto`, yielding a buffer whose element
count is the input's length.  (The conversion itself lives in the repository's
`slice` module, outside `src/`.) -/
def IndexInput.into_index_buffer : IndexInput → IndexBuffer
  | IndexInput.Auto => IndexBuffer.Auto
  | IndexInput.Index16Data data => IndexBuffer.Index16 { id := 0, size := data.length }
  | IndexInput.Index32Data data => IndexBuffer.Index32 { id := 0, size := data.length }

/-- Modelled from the spec: one or more compiled shader stages not yet linked
into a program; the factory extension only builds the `Simple` (vertex +
pixel) form. -/
inductive ShaderSet where
  | Simple (vs : Shader) (ps : Shader)
deriving DecidableEq

/-- Modelled from the spec: a named resource binding slot of a descriptor;
abstracted to its name. -/
abbrev Slot := String

/-- Modelled from the spec: the mutable binding-layout draft — primitive
topology, rasterizer configuration, and the binding slots filled in by the
linking step. -/
structure Descriptor where
  primitive : Primitive
  rasterizer : Rasterizer
  slots : List Slot
deriving DecidableEq

/-- Modelled from the spec: `Descriptor::new(primitive, rasterizer)` — a fresh
descriptor with no binding slots filled. -/
def Descriptor.new (primitive : Primitive) (rasterizer : Rasterizer) : Descriptor :=
  { primitive := primitive, rasterizer := rasterizer, slots := [] }

/-- Error creating a `PipelineState` — from `shade::ProgramError`: each shader
compile failure is tagged with its stage, and link failure is distinct. -/
inductive ProgramError where
  | Vertex (e : CreateShaderError)
  | Pixel (e : CreateShaderError)
  | Link (e : LinkError)
deriving DecidableEq

/-- `PipelineStateError` from `src/render/src/factory.rs`: program failure,
descriptor-init failure, or device-create failure. -/
inductive PipelineStateError where
  | Program (e : ProgramError)
  | DescriptorInit (e : InitError)
  | DeviceCreate (e : CreationError)
deriving DecidableEq

/-- Modelled from the spec: the final pipeline artifact — a raw device
pipeline handle, the primitive topology, and the `Meta` binding metadata. -/
structure PipelineState (M : Type) where
  raw : RawPipelineState
  primitive : Primitive
  meta : M
deriving DecidableEq

/-- Modelled from the spec: `PipelineState::new(raw, primitive, meta)`. -/
def PipelineState.new {M : Type} (raw : RawPipelineState) (primitive : Primitive)
    (meta : M) : PipelineState M :=
  { raw := raw, primitive := primitive, meta := meta }

/-- Modelled from the spec: the caller-provided typed pipeline specification.
Its one operation populates the descriptor's binding slots against the
program's reflected interface and returns `Meta`, or fails with a
format/name-mismatch error. -/
structure PipelineInit (M : Type) where
  link_to : List Slot → ProgramInfo → Except InitError (M × List Slot)

/-- A record of one raw backend invocation, used to state which device
operations a factory-extension call performs. -/
inductive Call where
  | buffer_const (len : Nat) (role : BufferRole)
  | buffer_dynamic (num : Nat) (role : BufferRole)
  | shader_vertex (code : List UInt8)
  | shader_pixel (code : List UInt8)
  | program (s : ShaderSet)
  | pipeline_raw (p : Program) (d : Descriptor)
  | sampler (info : SamplerInfo)
deriving DecidableEq

/-- Modelled from the spec: the base device/factory capability every
`FactoryExt` operation delegates to.  Each raw operation is a pure oracle;
allocation outcomes return the new handle's id or the backend's error. -/
structure Backend (V : Type) where
  buffer_const_alloc : List V → BufferRole → Bind → Except BufferError Nat
  buffer_dynamic_alloc : Nat → BufferRole → Bind → Except BufferError Nat
  create_shader_vertex : List UInt8 → Except CreateShaderError Shader
  create_shader_pixel : List UInt8 → Except CreateShaderError Shader
  create_program : ShaderSet → Except LinkError Program
  create_pipeline_state_raw : Program → Descriptor → Except CreationError RawPipelineState
  create_sampler : SamplerInfo → Sampler

/-- Rust's `Result::unwrap()`: success yields the value, failure is a panic —
modelled as `none` (the aborted computation produces no value). -/
def Except.unwrap {E A : Type} : Except E A → Option A
  | Except.ok a => some a
  | Except.error _ => none

variable {V M : Type}

/-- Modelled from the spec: the base factory's `create_buffer_const` — an
immutable buffer sized and initialized from the input sequence; on success the
created buffer's element count equals the input length. -/
def create_buffer_const (f : Backend V) (data : List V) (role : BufferRole)
    (bind : Bind) : Except BufferError (Buffer V) × List Call :=
  (match f.buffer_const_alloc data role bind with
    | Except.ok id => Except.ok { id := id, size := data.length }
    | Except.error e => Except.error e,
   [Call.buffer_const data.length role])

/-- Modelled from the spec: the base factory's `create_buffer_dynamic` — a
mutable buffer sized for `num` elements. -/
def create_buffer_dynamic (f : Backend V) (num : Nat) (role : BufferRole)
    (bind : Bind) : Except BufferError (Buffer V) × List Call :=
  (match f.buffer_dynamic_alloc num role bind with
    | Except.ok id => Except.ok { id := id, size := num }
    | Except.error e => Except.error e,
   [Call.buffer_dynamic num role])

/-- `FactoryExt::create_vertex_buffer`: delegates to `create_buffer_const`
with the `Vertex` role and empty bind flags, then `unwrap`s the result — an
allocation failure panics (`none`) instead of being propagated. -/
def create_vertex_buffer (f : Backend V) (vertices : List V) :
    Option (Buffer V) × List Call :=
  let r := create_buffer_const f vertices BufferRole.Vertex Bind.empty
  (Except.unwrap r.1, r.2)

/-- `FactoryExt::create_vertex_buffer_with_slice`: builds the vertex buffer,
converts the index input, computes the slice length from the index buffer's
element count if present (else the vertex buffer's), and populates the
`Slice`; the `buffer_length as u32` cast is `% 2^32`. -/
def create_vertex_buffer_with_slice (f : Backend V) (vertices : List V)
    (indices : IndexInput) : Option (Buffer V × Slice) × List Call :=
  match create_vertex_buffer f vertices with
  | (none, log) => (none, log)
  | (some vertex_buffer, log) =>
    let index_buffer := indices.into_index_buffer
    let buffer_length :=
      match index_buffer with
      | IndexBuffer.Auto => vertex_buffer.len
      | IndexBuffer.Index16 ib => ib.len
      | IndexBuffer.Index32 ib => ib.len
    (some (vertex_buffer,
      { start := 0
        stop := buffer_length % 2 ^ 32
        base_vertex := 0
        instances := none
        buffer := index_buffer }), log)

/-- `FactoryExt::create_constant_buffer`: a dynamic buffer for `num` elements
with the `Uniform` role; the allocation result is `unwrap`ped. -/
def create_constant_buffer (f : Backend V) (num : Nat) :
    Option (Buffer V) × List Call :=
  let r := create_buffer_dynamic f num BufferRole.Uniform Bind.empty
  (Except.unwrap r.1, r.2)

/-- `FactoryExt::create_shader_set`: compiles the vertex stage first; a
failure short-circuits as `ProgramError::Vertex`.  Then the pixel stage; a
failure is `ProgramError::Pixel`.  Success is `ShaderSet::Simple(vs, ps)`. -/
def create_shader_set (f : Backend V) (vs_code ps_code : List UInt8) :
    Except ProgramError ShaderSet × List Call :=
  match f.create_shader_vertex vs_code with
  | Except.error e =>
      (Except.error (ProgramError.Vertex e), [Call.shader_vertex vs_code])
  | Except.ok vs =>
    match f.create_shader_pixel ps_code with
    | Except.error e =>
        (Except.error (ProgramError.Pixel e),
         [Call.shader_vertex vs_code, Call.shader_pixel ps_code])
    | Except.ok ps =>
        (Except.ok (ShaderSet.Simple vs ps),
         [Call.shader_vertex vs_code, Call.shader_pixel ps_code])

/-- `FactoryExt::link_program`: assembles the shader set, then links it into a
program; a raw link failure is reported as `ProgramError::Link`. -/
def link_program (f : Backend V) (vs_code ps_code : List UInt8) :
    Except ProgramError Program × List Call :=
  match create_shader_set f vs_code ps_code with
  | (Except.error e, log) => (Except.error e, log)
  | (Except.ok s, log) =>
    match f.create_program s with
    | Except.ok p => (Except.ok p, log ++ [Call.program s])
    | Except.error e =>
        (Except.error (ProgramError.Link e), log ++ [Call.program s])

/-- `FactoryExt::create_pipeline_from_program`: constructs a fresh descriptor
from `(primitive, rasterizer)`, asks the typed `init` to populate its binding
slots against the program's reflected interface (failure:
`DescriptorInit`), then submits descriptor and program to the device
(failure: `DeviceCreate`); success packages raw handle, primitive and meta. -/
def create_pipeline_from_program (f : Backend V) (program : Program)
    (primitive : Primitive) (rasterizer : Rasterizer) (init : PipelineInit M) :
    Except PipelineStateError (PipelineState M) × List Call :=
  let descriptor := Descriptor.new primitive rasterizer
  match init.link_to descriptor.slots program.info with
  | Except.error e => (Except.error (PipelineStateError.DescriptorInit e), [])
  | Except.ok (meta, slots) =>
    let descriptor := { descriptor with slots := slots }
    match f.create_pipeline_state_raw program descriptor with
    | Except.error e =>
        (Except.error (PipelineStateError.DeviceCreate e),
         [Call.pipeline_raw program descriptor])
    | Except.ok raw =>
        (Except.ok (PipelineState.new raw primitive meta),
         [Call.pipeline_raw program descriptor])

/-- `FactoryExt::create_pipeline_state`: links the shader set into a program
(failure: `Program(Link(..))`), then delegates to
`create_pipeline_from_program`. -/
def create_pipeline_state (f : Backend V) (shaders : ShaderSet)
    (primitive : Primitive) (rasterizer : Rasterizer) (init : PipelineInit M) :
    Except PipelineStateError (PipelineState M) × List Call :=
  match f.create_program shaders with
  | Except.ok p =>
    let r := create_pipeline_from_program f p primitive rasterizer init
    (r.1, Call.program shaders :: r.2)
  | Except.error e =>
      (Except.error (PipelineStateError.Program (ProgramError.Link e)),
       [Call.program shaders])

/-- `FactoryExt::create_pipeline_simple`: builds the shader set from `vs` and
`ps` (failure: `Program(..)`), then creates the pipeline state with
triangle-list topology and the default no-cull fill rasterizer. -/
def create_pipeline_simple (f : Backend V) (vs ps : List UInt8)
    (init : PipelineInit M) :
    Except PipelineStateError (PipelineState M) × List Call :=
  match create_shader_set f vs ps with
  | (Except.ok s, log) =>
    let r := create_pipeline_state f s Primitive.TriangleList
      Rasterizer.new_fill init
    (r.1, log ++ r.2)
  | (Except.error e, log) => (Except.error (PipelineStateError.Program e), log)

/-- `FactoryExt::create_sampler_linear`: requests a sampler with
`SamplerInfo::new(FilterMethod::Trilinear, WrapMode::Clamp)`. -/
def create_sampler_linear (f : Backend V) : Sampler × List Call :=
  (f.create_sampler (SamplerInfo.new FilterMethod.Trilinear WrapMode.Clamp),
   [Call.sampler (SamplerInfo.new FilterMethod.Trilinear WrapMode.Clamp)])

/-- Modelled from the spec: the composition the specification describes for
`create_pipeline_simple` — "first building the shader set from vs and ps and
then calling create_pipeline_state with triangle-list primitive topology and a
default no-cull fill rasterizer", a shader-set failure being a program
error. -/
def shader_set_then_pipeline_state (f : Backend V) (vs ps : List UInt8)
    (init : PipelineInit M) :
    Except PipelineStateError (PipelineState M) × List Call :=
  match create_shader_set f vs ps with
  | (Except.ok s, log) =>
    let r := create_pipeline_state f s Primitive.TriangleList
      Rasterizer.new_fill init
    (r.1, log ++ r.2)
  | (Except.error e, log) => (Except.error (PipelineStateError.Program e), log)

/-! ## Concrete backend and specifications used to exercise the theorems -/

/-- A concrete backend: buffer allocation succeeds with id 1; shader
compilation fails exactly on empty bytecode; program linking fails exactly
when the vertex stage has id 0, otherwise yields a program exposing the
attribute `pos`; raw pipeline creation succeeds exactly when the descriptor
binds the single slot `pos`. -/
def demoBackend : Backend Unit where
  buffer_const_alloc := fun _ _ _ => Except.ok 1
  buffer_dynamic_alloc := fun _ _ _ => Except.ok 2
  create_shader_vertex := fun code =>
    if code.length = 0 then Except.error { code := 10 } else Except.ok { id := 1 }
  create_shader_pixel := fun code =>
    if code.length = 0 then Except.error { code := 20 } else Except.ok { id := 2 }
  create_program := fun s =>
    match s with
    | ShaderSet.Simple vs _ =>
      if vs.id = 0 then Except.error { code := 30 }
      else Except.ok { id := 7, info := { attributes := ["pos"] } }
  create_pipeline_state_raw := fun _ d =>
    if d.slots = ["pos"] then Except.ok { id := 9 } else Except.error { code := 40 }
  create_sampler := fun _ => { id := 5 }

/-- A backend whose constant-buffer allocation always fails. -/
def failAllocBackend : Backend Unit :=
  { demoBackend with buffer_const_alloc := fun _ _ _ => Except.error { code := 3 } }

/-- A typed specification that binds the attribute `pos`, failing when the
program's reflected interface does not expose that name. -/
def demoInit : PipelineInit Nat :=
  { link_to := fun slots info =>
      if "pos" ∈ info.attributes then Except.ok (42, slots ++ ["pos"])
      else Except.error { code := 50 } }

/-- A typed specification that requires an attribute `color`, absent from the
demo program's reflected interface. -/
def colorInit : PipelineInit Nat :=
  { link_to := fun slots info =>
      if "color" ∈ info.attributes then Except.ok (43, slots ++ ["color"])
      else Except.error { code := 51 } }

/-- The program the demo backend links: id 7, exposing attribute `pos`. -/
def demoProgram : Program :=
  { id := 7, info := { attributes := ["pos"] } }

/-! ## Theorems -/

/-- C2: if the vertex-stage compilation fails, `create_shader_set` returns a
program error tagged as a vertex-stage compile failure, and the recorded
backend interaction is exactly the one vertex compilation — the pixel stage is
never submitted to the backend. -/
theorem create_shader_set_vertex_fail_short_circuits {V : Type} (f : Backend V)
    (vs_code ps_code : List UInt8) (e : CreateShaderError)
    (h : f.create_shader_vertex vs_code = Except.error e) :
    create_shader_set f vs_code ps_code
      = (Except.error (ProgramError.Vertex e), [Call.shader_vertex vs_code]) := by
  unfold create_shader_set
  rw [h]

/-- C2 witness: on the demo backend, empty vertex bytecode fails to compile
and the pixel stage is never invoked. -/
theorem create_shader_set_vertex_fail_short_circuits_witness :
    create_shader_set demoBackend [] [1]
      = (Except.error (ProgramError.Vertex { code := 10 }),
         [Call.shader_vertex []]) :=
  create_shader_set_vertex_fail_short_circuits demoBackend [] [1] { code := 10 } rfl

/-- C3: if the vertex stage compiles and the pixel stage fails,
`create_shader_set` returns a program error tagged as a pixel-stage compile
failure (in particular, never a vertex-stage one). -/
theorem create_shader_set_pixel_fail_tagged_pixel {V : Type} (f : Backend V)
    (vs_code ps_code : List UInt8) (vs : Shader) (e : CreateShaderError)
    (hv : f.create_shader_vertex vs_code = Except.ok vs)
    (hp : f.create_shader_pixel ps_code = Except.error e) :
    (create_shader_set f vs_code ps_code).1
      = Except.error (ProgramError.Pixel e) := by
  unfold create_shader_set
  rw [hv, hp]

/-- C3 witness: on the demo backend, valid vertex bytecode with empty pixel
bytecode yields the pixel-stage-tagged error. -/
theorem create_shader_set_pixel_fail_tagged_pixel_witness :
    (create_shader_set demoBackend [1] []).1
      = Except.error (ProgramError.Pixel { code := 20 }) :=
  create_shader_set_pixel_fail_tagged_pixel demoBackend [1] [] { id := 1 }
    { code := 20 } rfl rfl

/-- C8: `create_sampler_linear` always requests from the device a sampler
configured with trilinear filtering and clamp addressing on both axes — the
request is this fixed configuration for every backend. -/
theorem create_sampler_linear_requests_trilinear_clamp {V : Type} (f : Backend V) :
    (create_sampler_linear f).2
        = [Call.sampler { filter := FilterMethod.Trilinear, wrap_u := WrapMode.Clamp, wrap_v := WrapMode.Clamp }]
      ∧ (create_sampler_linear f).1
        = f.create_sampler { filter := FilterMethod.Trilinear, wrap_u := WrapMode.Clamp, wrap_v := WrapMode.Clamp } :=
  ⟨rfl, rfl⟩

/-- C9: if program creation from an already-compiled shader set fails,
`create_pipeline_state` returns `Program (Link e)` — never a vertex- or
pixel-stage compile failure. -/
theorem create_pipeline_state_program_fail_is_link {V M : Type} (f : Backend V)
    (shaders : ShaderSet) (primitive : Primitive) (rasterizer : Rasterizer)
    (init : PipelineInit M) (e : LinkError)
    (h : f.create_program shaders = Except.error e) :
    (create_pipeline_state f shaders primitive rasterizer init).1
      = Except.error (PipelineStateError.Program (ProgramError.Link e)) := by
  unfold create_pipeline_state
  rw [h]

/-- C9 witness: the demo backend refuses to link a shader set whose vertex
stage has id 0, and the error is link-tagged. -/
theorem create_pipeline_state_program_fail_is_link_witness :
    (create_pipeline_state demoBackend
        (ShaderSet.Simple { id := 0 } { id := 2 })
        Primitive.TriangleList Rasterizer.new_fill demoInit).1
      = Except.error (PipelineStateError.Program (ProgramError.Link { code := 30 })) :=
  create_pipeline_state_program_fail_is_link demoBackend
    (ShaderSet.Simple { id := 0 } { id := 2 })
    Primitive.TriangleList Rasterizer.new_fill demoInit { code := 30 } rfl

/-- C4: if the typed specification's link step against the program's
reflected interface fails, `create_pipeline_from_program` returns a
`DescriptorInit` error (never a `DeviceCreate` one) and performs no backend
call at all — in particular the device's raw pipeline-state creation is not
invoked. -/
theorem create_pipeline_from_program_link_fail {V M : Type} (f : Backend V)
    (program : Program) (primitive : Primitive) (rasterizer : Rasterizer)
    (init : PipelineInit M) (e : InitError)
    (h : init.link_to (Descriptor.new primitive rasterizer).slots program.info
      = Except.error e) :
    create_pipeline_from_program f program primitive rasterizer init
      = (Except.error (PipelineStateError.DescriptorInit e), []) := by
  simp only [create_pipeline_from_program, h]

/-- C4 witness: a specification demanding the attribute `color`, absent from
the demo program's interface, fails with the descriptor-init error and no
device call. -/
theorem create_pipeline_from_program_link_fail_witness :
    create_pipeline_from_program demoBackend demoProgram Primitive.TriangleList
        Rasterizer.new_fill colorInit
      = (Except.error (PipelineStateError.DescriptorInit { code := 51 }), []) :=
  create_pipeline_from_program_link_fail demoBackend demoProgram
    Primitive.TriangleList Rasterizer.new_fill colorInit { code := 51 } rfl

/-- C5: when descriptor linking and device creation both succeed,
`create_pipeline_from_program` returns a `PipelineState` storing exactly the
supplied primitive topology, together with the raw device handle and the
`Meta` produced by linking. -/
theorem create_pipeline_from_program_success {V M : Type} (f : Backend V)
    (program : Program) (primitive : Primitive) (rasterizer : Rasterizer)
    (init : PipelineInit M) (m : M) (slots : List Slot) (raw : RawPipelineState)
    (hl : init.link_to (Descriptor.new primitive rasterizer).slots program.info
      = Except.ok (m, slots))
    (hr : f.create_pipeline_state_raw program
        { primitive := primitive, rasterizer := rasterizer, slots := slots } = Except.ok raw) :
    (create_pipeline_from_program f program primitive rasterizer init).1
      = Except.ok { raw := raw, primitive := primitive, meta := m } := by
  simp only [create_pipeline_from_program, hl]
  simp only [Descriptor.new]
  simp only [hr, PipelineState.new]

/-- C5 witness: the demo build with a non-default primitive stores that very
primitive in the returned pipeline state. -/
theorem create_pipeline_from_program_success_witness :
    (create_pipeline_from_program demoBackend demoProgram Primitive.TriangleStrip
        Rasterizer.new_fill demoInit).1
      = Except.ok { raw := { id := 9 }, primitive := Primitive.TriangleStrip, meta := 42 } :=
  create_pipeline_from_program_success demoBackend demoProgram
    Primitive.TriangleStrip Rasterizer.new_fill demoInit 42 ["pos"] { id := 9 } rfl rfl

/-- C7 counterexample: on a backend whose buffer allocation fails,
`create_vertex_buffer` aborts (the internal `unwrap` panics, yielding no
value) instead of surfacing the failure as a propagated error value. -/
theorem create_vertex_buffer_unwrap_counterexample :
    failAllocBackend.buffer_const_alloc ([] : List Unit) BufferRole.Vertex Bind.empty
        = Except.error { code := 3 }
    ∧ (create_vertex_buffer failAllocBackend ([] : List Unit)).1 = none :=
  ⟨rfl, rfl⟩

/-- C7 (amended): `create_vertex_buffer` fails only if the underlying device
buffer allocation fails, but such a failure panics through the internal
`unwrap` rather than being propagated to the caller as an error value: the
call produces no value exactly when the raw allocation returns an error. -/
theorem create_vertex_buffer_fails_only_on_alloc_failure {V : Type}
    (f : Backend V) (vertices : List V) :
    (create_vertex_buffer f vertices).1 = none
      ↔ ∃ e, f.buffer_const_alloc vertices BufferRole.Vertex Bind.empty
          = Except.error e := by
  cases h : f.buffer_const_alloc vertices BufferRole.Vertex Bind.empty with
  | ok i => simp [create_vertex_buffer, create_buffer_const, Except.unwrap, h]
  | error e => simp [create_vertex_buffer, create_buffer_const, Except.unwrap, h]

/-- C7 amended-claim witness: the failing-allocation backend makes
`create_vertex_buffer` abort. -/
theorem create_vertex_buffer_fails_only_on_alloc_failure_witness :
    (create_vertex_buffer failAllocBackend ([] : List Unit)).1 = none :=
  (create_vertex_buffer_fails_only_on_alloc_failure failAllocBackend []).2
    ⟨{ code := 3 }, rfl⟩

/-- The element count a slice's length is computed from: the index buffer's
if one is present, else the vertex buffer's. -/
def slice_element_count {V : Type} (vertices : List V) (indices : IndexInput) : Nat :=
  match indices.into_index_buffer with
  | IndexBuffer.Auto => vertices.length
  | IndexBuffer.Index16 ib => ib.len
  | IndexBuffer.Index32 ib => ib.len

/-- Unfolding lemma: the element count for sixteen-bit index data is its
length. -/
theorem slice_element_count_index16 {V : Type} (vertices : List V)
    (data : List UInt16) :
    slice_element_count vertices (IndexInput.Index16Data data) = data.length := rfl

/-- Unfolding lemma: the element count for thirty-two-bit index data is its
length. -/
theorem slice_element_count_index32 {V : Type} (vertices : List V)
    (data : List UInt32) :
    slice_element_count vertices (IndexInput.Index32Data data) = data.length := rfl

/-- Unfolding lemma: converting sixteen-bit index data yields an `Index16`
buffer holding the data's length. -/
theorem into_index_buffer_index16 (data : List UInt16) :
    (IndexInput.Index16Data data).into_index_buffer
      = IndexBuffer.Index16 { id := 0, size := data.length } := rfl

/-- Characterization of `create_vertex_buffer_with_slice` under successful
allocation, shared by the statements about its slice fields. -/
theorem vertex_buffer_with_slice_characterization {V : Type} (f : Backend V)
    (vertices : List V) (indices : IndexInput) (i : Nat)
    (h : f.buffer_const_alloc vertices BufferRole.Vertex Bind.empty = Except.ok i) :
    (create_vertex_buffer_with_slice f vertices indices).1
      = some ({ id := i, size := vertices.length },
          { start := 0
            stop := slice_element_count vertices indices % 2 ^ 32
            base_vertex := 0
            instances := none
            buffer := indices.into_index_buffer }) := by
  simp only [create_vertex_buffer_with_slice, create_vertex_buffer,
    create_buffer_const, h, Except.unwrap, Buffer.len, slice_element_count]

/-- C1 counterexample: with `2^32` sixteen-bit indices the slice returned by
`create_vertex_buffer_with_slice` has length 0 (`stop = start = 0`), not the
index buffer's element count `2^32` — the claimed equality of slice length and
element count fails at this input. -/
theorem create_vertex_buffer_with_slice_wrap_counterexample :
    (create_vertex_buffer_with_slice demoBackend ([] : List Unit)
        (IndexInput.Index16Data (List.replicate (2 ^ 32) 0))).1
      = some ({ id := 1, size := 0 },
          { start := 0, stop := 0, base_vertex := 0, instances := none,
            buffer := IndexBuffer.Index16 { id := 0, size := 2 ^ 32 } })
    ∧ (0 : Nat) - 0 ≠ 2 ^ 32 := by
  have h := vertex_buffer_with_slice_characterization demoBackend ([] : List Unit)
    (IndexInput.Index16Data (List.replicate (2 ^ 32) 0)) 1 rfl
  rw [slice_element_count_index16, into_index_buffer_index16,
    List.length_replicate, List.length_nil, Nat.mod_self] at h
  exact ⟨h, by decide⟩

/-- C1 (amended): when the vertex-buffer allocation succeeds,
`create_vertex_buffer_with_slice` returns the allocated buffer together with a
`Slice` whose `start` and `base_vertex` are 0, whose `instances` is `none`,
whose index buffer is the converted index input, and whose length
(`stop - start`) is the index buffer's element count for `Index16`/`Index32`
(the vertex count for `Auto`) reduced `% 2^32` — hence exactly that element
count whenever it is below `2^32`. -/
theorem create_vertex_buffer_with_slice_spec {V : Type} (f : Backend V)
    (vertices : List V) (indices : IndexInput) (i : Nat)
    (h : f.buffer_const_alloc vertices BufferRole.Vertex Bind.empty = Except.ok i) :
    (create_vertex_buffer_with_slice f vertices indices).1
      = some ({ id := i, size := vertices.length },
          { start := 0
            stop := slice_element_count vertices indices % 2 ^ 32
            base_vertex := 0
            instances := none
            buffer := indices.into_index_buffer }) :=
  vertex_buffer_with_slice_characterization f vertices indices i h

/-- C1 amended-claim witness: one vertex with two sixteen-bit indices yields a
slice of length 2 with all the claimed field values. -/
theorem create_vertex_buffer_with_slice_spec_witness :
    (create_vertex_buffer_with_slice demoBackend [()] (IndexInput.Index16Data [5, 6])).1
      = some ({ id := 1, size := 1 },
          { start := 0, stop := 2, base_vertex := 0, instances := none,
            buffer := IndexBuffer.Index16 { id := 0, size := 2 } }) := by
  have h := create_vertex_buffer_with_slice_spec demoBackend [()]
    (IndexInput.Index16Data [5, 6]) 1 rfl
  simpa [slice_element_count, IndexInput.into_index_buffer, Buffer.len] using h

/-- C10: the `end` field of the slice returned by
`create_vertex_buffer_with_slice` is the computed element count reduced modulo
`2^32` (the `usize` length cast to `u32`) — a count of `2^32` or more wraps
silently instead of failing. -/
theorem create_vertex_buffer_with_slice_end_mod_u32 {V : Type} (f : Backend V)
    (vertices : List V) (indices : IndexInput) (i : Nat)
    (h : f.buffer_const_alloc vertices BufferRole.Vertex Bind.empty = Except.ok i) :
    ((create_vertex_buffer_with_slice f vertices indices).1.map fun r => r.2.stop)
      = some (slice_element_count vertices indices % 2 ^ 32) := by
  rw [vertex_buffer_with_slice_characterization f vertices indices i h]
  rfl

/-- C10 witness: `2^32 + 5` thirty-two-bit indices produce a slice whose
`end` is 5 — the count silently wrapped, no failure occurred. -/
theorem create_vertex_buffer_with_slice_end_mod_u32_witness :
    ((create_vertex_buffer_with_slice demoBackend ([] : List Unit)
        (IndexInput.Index32Data (List.replicate (2 ^ 32 + 5) 0))).1.map fun r => r.2.stop)
      = some 5 := by
  have h := create_vertex_buffer_with_slice_end_mod_u32 demoBackend ([] : List Unit)
    (IndexInput.Index32Data (List.replicate (2 ^ 32 + 5) 0)) 1 rfl
  have h5 : ((2 : Nat) ^ 32 + 5) % 2 ^ 32 = 5 := by
    rw [Nat.add_mod, Nat.mod_self]
    norm_num
  rw [slice_element_count_index32, List.length_replicate, h5] at h
  exact h

/-- The backend calls recorded by `create_shader_set` are shader compilations
only: no raw pipeline-state creation appears in its log. -/
theorem create_shader_set_no_pipeline_raw {V : Type} (f : Backend V)
    (vs_code ps_code : List UInt8) (p : Program) (d : Descriptor) :
    Call.pipeline_raw p d ∉ (create_shader_set f vs_code ps_code).2 := by
  unfold create_shader_set
  cases f.create_shader_vertex vs_code with
  | error e => simp
  | ok vs =>
    cases f.create_shader_pixel ps_code with
    | error e => simp
    | ok ps => simp

/-- Any descriptor `create_pipeline_from_program` submits to the device
carries exactly the supplied primitive and rasterizer. -/
theorem create_pipeline_from_program_raw_descriptor {V M : Type} (f : Backend V)
    (program : Program) (primitive : Primitive) (rasterizer : Rasterizer)
    (init : PipelineInit M) (p : Program) (d : Descriptor)
    (hmem : Call.pipeline_raw p d
      ∈ (create_pipeline_from_program f program primitive rasterizer init).2) :
    d.primitive = primitive ∧ d.rasterizer = rasterizer := by
  simp only [create_pipeline_from_program] at hmem
  split at hmem
  · simp at hmem
  · split at hmem
    all_goals
      simp only [List.mem_singleton, Call.pipeline_raw.injEq] at hmem
      rcases hmem with ⟨hp, hd⟩
      subst hd
      exact ⟨rfl, rfl⟩

/-- Any descriptor `create_pipeline_state` submits to the device carries
exactly the supplied primitive and rasterizer. -/
theorem create_pipeline_state_raw_descriptor {V M : Type} (f : Backend V)
    (shaders : ShaderSet) (primitive : Primitive) (rasterizer : Rasterizer)
    (init : PipelineInit M) (p : Program) (d : Descriptor)
    (hmem : Call.pipeline_raw p d
      ∈ (create_pipeline_state f shaders primitive rasterizer init).2) :
    d.primitive = primitive ∧ d.rasterizer = rasterizer := by
  simp only [create_pipeline_state] at hmem
  split at hmem
  · rename_i prog hp
    simp only [List.mem_cons] at hmem
    rcases hmem with h1 | h2
    · exact absurd h1 (by simp)
    · exact create_pipeline_from_program_raw_descriptor f prog primitive
        rasterizer init p d h2
  · simp at hmem

/-- C6: `create_pipeline_simple` produces exactly the result of first building
the shader set and then calling `create_pipeline_state` with triangle-list
primitive topology and the default no-cull fill rasterizer; moreover every
descriptor it submits to the device has its primitive and rasterizer fields
fixed to those defaults. -/
theorem create_pipeline_simple_matches_composition {V M : Type} (f : Backend V)
    (vs ps : List UInt8) (init : PipelineInit M) :
    create_pipeline_simple f vs ps init = shader_set_then_pipeline_state f vs ps init
    ∧ ∀ p d, Call.pipeline_raw p d ∈ (create_pipeline_simple f vs ps init).2 →
        d.primitive = Primitive.TriangleList ∧ d.rasterizer = Rasterizer.new_fill := by
  refine ⟨rfl, ?_⟩
  intro p d hmem
  simp only [create_pipeline_simple] at hmem
  split at hmem
  · rename_i s log hs
    simp only [List.mem_append] at hmem
    rcases hmem with h1 | h2
    · have hno := create_shader_set_no_pipeline_raw f vs ps p d
      rw [hs] at hno
      exact absurd h1 hno
    · exact create_pipeline_state_raw_descriptor f s Primitive.TriangleList
        Rasterizer.new_fill init p d h2
  · rename_i e log hs
    have hno := create_shader_set_no_pipeline_raw f vs ps p d
    rw [hs] at hno
    exact absurd hmem hno

/-- The descriptor the demo pipeline build submits to the device. -/
def demoDescriptor : Descriptor :=
  { primitive := Primitive.TriangleList
    rasterizer := Rasterizer.new_fill
    slots := ["pos"] }

/-- C6 witness: in the demo build, the one descriptor submitted to the device
indeed carries the triangle-list primitive and the no-cull fill rasterizer. -/
theorem create_pipeline_simple_matches_composition_witness :
    demoDescriptor.primitive = Primitive.TriangleList
    ∧ demoDescriptor.rasterizer = Rasterizer.new_fill :=
  (create_pipeline_simple_matches_composition demoBackend [1] [1] demoInit).2
    demoProgram demoDescriptor (by decide)

end GfxFactory
